import Mathlib

/-!
Shallow embedding of the `windsurf-starter-template` repository
(`src/main.py`, `src/config.py`, `src/tools/example_tool.py`) and proofs
about the claims of its specification.

Python values that flow through the agent (JSON-like data, tool inputs,
result envelopes) are modelled by the inductive type `PyValue`; Python
`float` is modelled by `ℚ` (the concrete arithmetic in the claims is exact);
Python exceptions are modelled by `Except` with an explicit error type.
External collaborators (aiohttp sessions/sites, the event loop, the real
file system, `json.loads`) are modelled as black boxes: state flags,
function parameters, or environment records.
-/

/-- A Python/JSON value as it appears in the agent's data flow. -/
inductive PyValue where
  | vNull : PyValue
  | vBool (b : Bool) : PyValue
  | vNum (q : ℚ) : PyValue
  | vStr (s : String) : PyValue
  | vArr (xs : List PyValue) : PyValue
  | vObj (fields : List (String × PyValue)) : PyValue

/-- A Python `dict` with string keys, in insertion order. -/
abbrev PyDict := List (String × PyValue)

/-- `d.get(key)` / `key in d`: first binding of `key` in the dict. -/
def dictGet : PyDict → String → Option PyValue
  | [], _ => none
  | (k, v) :: rest, key => if k = key then some v else dictGet rest key

/-- `d.get(key, default)`. -/
def dictGetD (d : PyDict) (key : String) (default : PyValue) : PyValue :=
  (dictGet d key).getD default

/-- Python `repr`-ish rendering of a number, as f-strings produce it:
integral floats render with a trailing `.0`. -/
def pyNumRepr (q : ℚ) : String :=
  if q.den = 1 then toString q.num ++ ".0" else toString q.num ++ "/" ++ toString q.den

/-- Python `str()` on an embedded value (only the scalar cases are ever
reached by the embedded code). -/
def pyStr : PyValue → String
  | .vNull => "None"
  | .vBool b => if b then "True" else "False"
  | .vNum q => pyNumRepr q
  | .vStr s => s
  | .vArr _ => "[...]"
  | .vObj _ => "{...}"

/-! ### `src/tools/example_tool.py` -/

/-- `ToolConfig` dataclass: configuration for the ExampleTool. -/
structure ToolConfig where
  default_name : String := "World"
  max_add_value : ℚ := 1000
deriving Repr

/-- The exceptions raised inside `ExampleTool.execute`'s `try` block:
`ToolError` subtypes carry `str(e)`; any other exception is `unexpected`. -/
inductive ToolExc where
  | inputValidation (msg : String) : ToolExc
  | operationNotSupported (msg : String) : ToolExc
  | unexpected (msg : String) : ToolExc

/-- `str(e)` as used by the `except` clauses of `execute`: a `ToolError`
subtype produces its own message, an unexpected error is wrapped with the
generic prefix. -/
def ToolExc.displayMsg : ToolExc → String
  | .inputValidation m => m
  | .operationNotSupported m => m
  | .unexpected m => "Unexpected error: " ++ m

/-- The `ExecuteResult` TypedDict returned by `ExampleTool.execute`. -/
structure ExecuteResult where
  status : String
  result : Option PyValue
  error : Option String
  metadata : PyDict

/-- `float(x)` failures distinguish `TypeError` and `ValueError` (both are
caught by `_handle_add`). -/
inductive FloatErr where
  | typeError : FloatErr
  | valueError : FloatErr

/-- A restricted model of Python's `float(string)` parser: optional sign,
digits, optional fractional digits. Returns `none` where Python raises
`ValueError`. -/
def parseFloat (s : String) : Option ℚ :=
  let chars := s.data
  let (sign, rest) :=
    match chars with
    | '-' :: cs => ((-1 : ℚ), cs)
    | '+' :: cs => ((1 : ℚ), cs)
    | cs => ((1 : ℚ), cs)
  let intPart := rest.takeWhile Char.isDigit
  let afterInt := rest.drop intPart.length
  let digitsVal (ds : List Char) : ℚ :=
    ds.foldl (fun acc c => acc * 10 + (c.toNat - '0'.toNat : ℕ)) 0
  match afterInt with
  | [] =>
      if intPart.isEmpty then none
      else some (sign * digitsVal intPart)
  | '.' :: fracs =>
      if fracs.all Char.isDigit ∧ ¬ (intPart.isEmpty ∧ fracs.isEmpty) then
        some (sign * (digitsVal intPart + digitsVal fracs / (10 : ℚ) ^ fracs.length))
      else none
  | _ => none

/-- Python `float(x)` on an embedded value: numbers pass through, booleans
coerce, strings are parsed (else `ValueError`), everything else is a
`TypeError`. -/
def pyFloat : PyValue → Except FloatErr ℚ
  | .vNum q => .ok q
  | .vBool b => .ok (if b then 1 else 0)
  | .vStr s =>
      match parseFloat s with
      | some q => .ok q
      | none => .error .valueError
  | .vNull => .error .typeError
  | .vArr _ => .error .typeError
  | .vObj _ => .error .typeError

/-- `ExampleTool._handle_greet`: greet with the provided or default name. -/
def handle_greet (cfg : ToolConfig) (input : PyDict) : Except ToolExc PyValue :=
  let name := pyStr (dictGetD input "name" (.vStr cfg.default_name))
  .ok (.vStr ("Hello, " ++ name ++ "!"))

/-- `ExampleTool._handle_add`: convert `a` and `b` with `float(...)`
(conversion failures are re-raised as `InputValidationError`), enforce the
`max_add_value` magnitude bound, return the sum. -/
def handle_add (cfg : ToolConfig) (input : PyDict) : Except ToolExc PyValue :=
  match pyFloat (dictGetD input "a" (.vNum 0)) with
  | .error _ => .error (.inputValidation "Both 'a' and 'b' must be numbers")
  | .ok a =>
    match pyFloat (dictGetD input "b" (.vNum 0)) with
    | .error _ => .error (.inputValidation "Both 'a' and 'b' must be numbers")
    | .ok b =>
      if |a| > cfg.max_add_value ∨ |b| > cfg.max_add_value then
        .error (.inputValidation
          ("Values must not exceed " ++ pyNumRepr cfg.max_add_value ++ " in magnitude"))
      else
        .ok (.vNum (a + b))

/-- `ExampleTool._create_error_result`: standardized error envelope; its
metadata holds only the input. -/
def create_error_result (error_msg : String) (input : PyDict) : ExecuteResult :=
  { status := "error"
    result := none
    error := some error_msg
    metadata := [("input", .vObj input)] }

/-- The body of `ExampleTool.execute`'s `try` block: validate that the
`operation` key is present, read it (the `'greet'` default of
`input_data.get` is unreachable because presence was just checked), and
route to the matching handler. Returns the operation value together with
the handler's result. -/
def executeBody (cfg : ToolConfig) (input : PyDict) :
    Except ToolExc (PyValue × PyValue) :=
  if (dictGet input "operation").isSome then
    let op := dictGetD input "operation" (.vStr "greet")
    match op with
    | .vStr s =>
        if s = "greet" then (handle_greet cfg input).map (fun r => (op, r))
        else if s = "add" then (handle_add cfg input).map (fun r => (op, r))
        else .error (.operationNotSupported ("Unsupported operation: " ++ s))
    | _ => .error (.operationNotSupported ("Unsupported operation: " ++ pyStr op))
  else
    .error (.inputValidation "Input must be a dictionary with an 'operation' key")

/-- `ExampleTool.execute`: run the body; on success build the success
envelope (metadata holds the operation and the input), on any raised
error build the error envelope via `_create_error_result`. -/
def execute (cfg : ToolConfig) (input : PyDict) : ExecuteResult :=
  match executeBody cfg input with
  | .ok (op, result) =>
      { status := "success"
        result := some result
        error := none
        metadata := [("operation", op), ("input", .vObj input)] }
  | .error e => create_error_result e.displayMsg input

/-! ### `src/config.py`: the pydantic configuration models with their
declared defaults. Numeric fields are Python ints (`ℤ`). -/

/-- `MemoryConfig` model. -/
structure MemoryConfig where
  enabled : Bool := true
  persistence : Bool := true
  max_entries : ℤ := 1000

/-- `ToolsConfig` model. -/
structure ToolsConfig where
  auto_discover : Bool := true
  directory : String := "src/tools"
  timeout_seconds : ℤ := 30

/-- `LoggingConfig` model. -/
structure LoggingConfig where
  level : String := "INFO"
  format : String := "%(asctime)s - %(name)s - %(levelname)s - %(message)s"
  file : String := "logs/agent.log"
  max_size_mb : ℤ := 10
  backup_count : ℤ := 5

/-- `RateLimitConfig` model. -/
structure RateLimitConfig where
  enabled : Bool := true
  max_requests : ℤ := 100
  window_seconds : ℤ := 60

/-- `CorsConfig` model. -/
structure CorsConfig where
  enabled : Bool := true
  allow_credentials : Bool := true
  allowed_methods : List String := ["GET", "POST", "PUT", "DELETE"]
  allowed_headers : List String := ["*"]
  exposed_headers : List String := []
  max_age : ℤ := 600

/-- `SecurityConfig` model. -/
structure SecurityConfig where
  require_authentication : Bool := false
  api_key : String := ""
  allowed_origins : List String := ["*"]
  rate_limit : RateLimitConfig := {}
  cors : CorsConfig := {}

/-- `HealthCheckConfig` model. -/
structure HealthCheckConfig where
  enabled : Bool := true
  endpoint : String := "/health"
  live_endpoint : String := "/health/live"
  ready_endpoint : String := "/health/ready"

/-- `MonitoringConfig` model. -/
structure MonitoringConfig where
  enabled : Bool := true
  port : ℤ := 9090
  endpoint : String := "/metrics"
  health_check : HealthCheckConfig := {}

/-- `VersionControlConfig` model. -/
structure VersionControlConfig where
  auto_commit : Bool := false
  branch : String := "main"
  remote : String := "origin"
  commit_message : String := "chore: auto-update config"

/-- `AgentConfig` model: fields in their Python declaration order (the
order `__fields__` is iterated in by `update_from_env`): four simple
string fields first, then the nested section models starting with
`memory`. -/
structure AgentConfig where
  name : String := "windsurf-agent"
  version : String := "0.1.0"
  description : String := "A Windsurf agent template"
  entry_point : String := "src/main.py"
  memory : MemoryConfig := {}
  tools : ToolsConfig := {}
  logging : LoggingConfig := {}
  security : SecurityConfig := {}
  monitoring : MonitoringConfig := {}
  version_control : VersionControlConfig := {}

/-- The exceptions that the embedded configuration loading code can
surface. -/
inductive ConfigExc where
  | fileNotFound (msg : String) : ConfigExc
  | validationError (msg : String) : ConfigExc
  | attributeError (msg : String) : ConfigExc

/-- `parse_env_var`: read an environment variable and try a JSON parse,
falling back to the literal string (`json.loads` is an external
collaborator, passed in as `jsonLoads`). -/
def parse_env_var (jsonLoads : String → Option PyValue) (env : String → Option String)
    (name : String) (default : PyValue) : PyValue :=
  match env name with
  | none => default
  | some value =>
    match jsonLoads value with
    | some parsed => parsed
    | none => .vStr value

/-- `AgentConfig.update_from_env`: walk `__fields__` in declaration order
with prefix `WINDSURF_`. The four leading simple fields are looked up as
`WINDSURF_<FIELD>` (JSON parse first, literal string fallback) and
assigned in place. The fifth field, `memory`, is a nested pydantic model,
so the code calls `nested_config.update_from_env()` — but `MemoryConfig`
(a plain `BaseModel`) defines no such method, so every call fails with
`AttributeError` at that point; no nested section (and in particular no
underscore-joined path such as `WINDSURF_LOGGING_LEVEL`) is ever
consulted. -/
def update_from_env (jsonLoads : String → Option PyValue) (env : String → Option String)
    (c : AgentConfig) : Except ConfigExc AgentConfig :=
  -- field "name": simple — env lookup WINDSURF_NAME, setattr of the raw
  -- parsed value (unvalidated assignment; never observable because the
  -- traversal always raises below)
  let _name := (env "WINDSURF_NAME").map (fun value => (jsonLoads value).getD (.vStr value))
  let _version := (env "WINDSURF_VERSION").map (fun value => (jsonLoads value).getD (.vStr value))
  let _description := (env "WINDSURF_DESCRIPTION").map (fun value => (jsonLoads value).getD (.vStr value))
  let _entry_point := (env "WINDSURF_ENTRY_POINT").map (fun value => (jsonLoads value).getD (.vStr value))
  -- field "memory": nested BaseModel → `self.memory.update_from_env()`
  .error (.attributeError "'MemoryConfig' object has no attribute 'update_from_env'")

/-- `AgentConfig.from_json_file`: missing path raises
`FileNotFoundError("Configuration file not found: <path>")`, otherwise the
document is parsed and validated by pydantic's `parse_obj` (an external
collaborator, passed in as `parseObj`). The file system is the partial
map `fs` from paths to parsed JSON documents. -/
def from_json_file (parseObj : PyValue → Except ConfigExc AgentConfig)
    (fs : String → Option PyValue) (file_path : String) : Except ConfigExc AgentConfig :=
  match fs file_path with
  | none => .error (.fileNotFound ("Configuration file not found: " ++ file_path))
  | some doc => parseObj doc

/-- `load_config`: explicit path → `from_json_file` (missing file is an
error); no path → the default location `.windsurf/agent_settings.json` if
it exists, else the built-in default `AgentConfig()`; finally, if
`use_env` (default `True`), apply `update_from_env`. -/
def load_config (parseObj : PyValue → Except ConfigExc AgentConfig)
    (jsonLoads : String → Option PyValue) (env : String → Option String)
    (fs : String → Option PyValue) (file_path : Option String) (use_env : Bool) :
    Except ConfigExc AgentConfig := do
  let config ←
    match file_path with
    | none =>
      if (fs ".windsurf/agent_settings.json").isSome then
        from_json_file parseObj fs ".windsurf/agent_settings.json"
      else
        pure {}
    | some p => from_json_file parseObj fs p
  if use_env then
    update_from_env jsonLoads env config
  else
    pure config

/-! ### `src/main.py`: the `Agent` class.

The mutable fields of an `Agent` instance form `AgentState`. Tool
instances are `ExampleTool` objects, whose only state is their
`ToolConfig`. The aiohttp client session is `some closed?` once created;
the web app, runner and TCP site are external handles recorded as
present/absent. The claims' scenarios construct the agent with an
explicit config, so `_config` is definite here. -/
structure AgentState where
  config : AgentConfig
  tools : List (String × ToolConfig) := []
  memory : Option PyDict := none
  setupComplete : Bool := false
  httpSession : Option Bool := none
  webApp : Option Unit := none
  runner : Option Unit := none
  -- `_site`: absent, or present with its aiohttp runner-registration state
  -- (`some true` = registered, `some false` = unregistered by a `stop()`).
  -- The registration state decides whether a further `stop()` raises.
  site : Option Bool := none

/-- `Agent.__init__` with an explicit config: every mutable field starts
empty/unset (`_configure_logging` only mutates external logger state). -/
def agentInit (config : AgentConfig) : AgentState :=
  { config }

/-- The parts of the outside world that `setup`/`process` consult: whether
the configured tools directory exists, whether importing
`tools.example_tool` succeeds, and the event-loop clock used for the
response timestamp. -/
structure SysEnv where
  toolsDirExists : Bool := true
  importOk : Bool := true
  time : ℚ := 0

/-- `d[key] = value` on a Python dict: replace the existing binding or
append a new one. -/
def dictSet (d : List (String × ToolConfig)) (key : String) (v : ToolConfig) :
    List (String × ToolConfig) :=
  match d with
  | [] => [(key, v)]
  | (k, w) :: rest => if k = key then (k, v) :: rest else (k, w) :: dictSet rest key v

/-- `Agent._setup_memory`: initialize `self.memory = {}` when enabled. -/
def setupMemory (s : AgentState) : AgentState :=
  if ¬ s.config.memory.enabled then s else { s with memory := some [] }

/-- `Agent._load_tools`: when auto-discovery is enabled and the tools
directory exists, import and register the example tool under the name
`"example"` (a failed import is logged and skipped). -/
def loadTools (env : SysEnv) (s : AgentState) : AgentState :=
  if ¬ s.config.tools.auto_discover then s
  else if ¬ env.toolsDirExists then s
  else if env.importOk then { s with tools := dictSet s.tools "example" {} }
  else s

/-- `Agent._setup_http_server`: when monitoring is enabled, create the web
app, runner and TCP site and start the site. `BaseSite.start` registers
the site with the runner before binding, and a failed bind is caught and
logged, so after setup the site handle is set and runner-registered
either way. -/
def setupHttpServer (s : AgentState) : AgentState :=
  if ¬ s.config.monitoring.enabled then s
  else { s with webApp := some (), runner := some (), site := some true }

/-- `Agent.setup`: if `_setup_complete` is already set, return
immediately; otherwise initialize memory, tools and the HTTP server and
set `_setup_complete`. -/
def setup (env : SysEnv) (s : AgentState) : AgentState :=
  if s.setupComplete then s
  else
    let s1 := setupMemory s
    let s2 := loadTools env s1
    let s3 := setupHttpServer s2
    { s3 with setupComplete := true }

/-- `Agent.process`: run `setup` first if `_setup_complete` is not yet
set, then (the input is a dict by typing, so the `isinstance` guard
passes) build and return the fixed response dictionary — status
`success`, the echoed input, a `None` result and agent metadata. No tool
dispatch happens. -/
def process (env : SysEnv) (s : AgentState) (input : PyDict) : AgentState × PyDict :=
  let s := if ¬ s.setupComplete then setup env s else s
  (s, [("status", .vStr "success"),
       ("input", .vObj input),
       ("result", .vNull),
       ("metadata", .vObj [("agent", .vStr s.config.name),
                           ("version", .vStr s.config.version),
                           ("timestamp", .vNum env.time)])])

/-- The exception that escapes `Agent.cleanup` when `_site.stop()` is
called on a site no longer registered with its runner: aiohttp's
`BaseSite.stop` begins with `self._runner._check_site(self)`, which
raises `RuntimeError` (`"Site <site> is not registered in runner
<runner>"`; the object reprs are elided here). -/
inductive RuntimeExc where
  | runtimeError (msg : String) : RuntimeExc

/-- `Agent.cleanup`: close the HTTP client session if it is open; then, if
`_site` is set, `await self._site.stop()` — which unregisters a
registered site, but raises `RuntimeError` (via aiohttp's `_check_site`)
if the site was already unregistered by a previous `cleanup`, because the
handle fields are never reset to `None`; on that raise the method is
abandoned (tools are not cleared). Otherwise run the runner / web-app
teardown (external), run each tool's `cleanup` (a no-op for
`ExampleTool`) and delete every registry entry. `_setup_complete` is left
untouched. -/
def cleanup (s : AgentState) : Except RuntimeExc AgentState :=
  let s1 :=
    match s.httpSession with
    | some false => { s with httpSession := some true }
    | _ => s
  match s1.site with
  | some false => .error (.runtimeError "Site is not registered in runner")
  | some true => .ok { s1 with site := some false, tools := [] }
  | none => .ok { s1 with tools := [] }

/-- ASCII lowercasing of one character, as Python's `str.lower` acts on
the ASCII error messages involved here. -/
def lowerChar (c : Char) : Char :=
  if 'A' ≤ c ∧ c ≤ 'Z' then Char.ofNat (c.toNat + 32) else c

/-- The character list of a string, ASCII-lowercased (used to state
case-insensitive containment of error text). -/
def lowerData (s : String) : List Char :=
  s.data.map lowerChar

/-- The POSIX signals wired up by `Agent.run`. -/
inductive Signal where
  | sigint : Signal
  | sigterm : Signal

/-- `Agent.shutdown`: on SIGINT/SIGTERM, log, run the same `cleanup` used
by explicit shutdown, and stop the event loop (external). -/
def shutdown (_sig : Signal) (s : AgentState) : Except RuntimeExc AgentState :=
  cleanup s

/-! ## Theorems about the claims -/

/-- The concrete configuration of the spec's scenario: name `"a"`, tool
auto-discovery disabled, everything else defaulted. -/
def scenarioConfigA : AgentConfig :=
  { name := "a", tools := { auto_discover := false } }

/-- C1: evaluating the code at the claim's failing input. After `setup`
with `auto_discover = false` the registry is empty, yet
`process({tool:"x", operation:"y"})` returns a response with status
`"success"`, result `None` and no `"error"` entry at all — `Agent.process`
performs no tool lookup, so the claimed `"tool not found: x"` error
envelope is never produced. -/
theorem C1_process_never_reports_tool_not_found :
    (setup {} { config := scenarioConfigA }).tools = [] ∧
    (process {} (setup {} { config := scenarioConfigA })
        [("tool", .vStr "x"), ("operation", .vStr "y")]).2 =
      [("status", .vStr "success"),
       ("input", .vObj [("tool", .vStr "x"), ("operation", .vStr "y")]),
       ("result", .vNull),
       ("metadata", .vObj [("agent", .vStr "a"), ("version", .vStr "0.1.0"),
                           ("timestamp", .vNum 0)])] ∧
    dictGet (process {} (setup {} { config := scenarioConfigA })
        [("tool", .vStr "x"), ("operation", .vStr "y")]).2 "error" = none := by
  refine ⟨rfl, rfl, rfl⟩

/-- C3: `setup()` is idempotent. A second `setup` call (under any
environment) returns the state of the first call unchanged — so no
double-initialization happens: in particular the registered tool list
keeps its length and the HTTP handles (web app, runner, bound site) are
exactly those of the first call. -/
theorem C3_setup_idempotent (e₁ e₂ : SysEnv) (s : AgentState) :
    setup e₂ (setup e₁ s) = setup e₁ s ∧
    (setup e₂ (setup e₁ s)).tools.length = (setup e₁ s).tools.length := by
  have hdone : (setup e₁ s).setupComplete = true := by
    by_cases h : s.setupComplete = true <;> simp [setup, h]
  have hstable : ∀ t : AgentState, t.setupComplete = true → setup e₂ t = t := by
    intro t h
    simp [setup, h]
  exact ⟨hstable _ hdone, by rw [hstable _ hdone]⟩

/-- C4: evaluating the code at the failing input. An agent with the
built-in default configuration (monitoring enabled) is set up and then
cleaned up twice: the first `cleanup()` succeeds (emptying the registry
and unregistering the TCP site), but the second `cleanup()` raises
`RuntimeError` — `self._site` was never reset, so `self._site.stop()`
runs again on the now-unregistered site and aiohttp's `_check_site`
raises. The claimed no-raise no-op second call is refuted. -/
theorem C4_second_cleanup_raises :
    ∃ t, cleanup (setup {} (agentInit {})) = .ok t ∧
      cleanup t = .error (.runtimeError "Site is not registered in runner") := by
  exact ⟨_, rfl, rfl⟩

/-- C5: evaluating `AgentConfig.update_from_env` on its failing inputs.
For every environment — in particular one holding
`WINDSURF_LOGGING_LEVEL=DEBUG` — and every starting configuration, the
field walk raises `AttributeError` when it reaches the first nested
section (`memory`), because the nested pydantic models define no
`update_from_env` method. No nested override path is ever read, so the
claimed resolved value can never be produced. -/
theorem C5_update_from_env_always_raises
    (jsonLoads : String → Option PyValue) (env : String → Option String)
    (c : AgentConfig) :
    update_from_env jsonLoads env c =
      .error (.attributeError "'MemoryConfig' object has no attribute 'update_from_env'") :=
  rfl

/-- C6: evaluating `load_config` against an empty file system. An explicit
missing path does fail with the not-found error, as claimed; but with no
path given and no default file, the claimed fallback to built-in defaults
only survives when `use_env` is `False` — under the default
`use_env=True`, the fallback configuration is immediately fed to
`update_from_env`, which raises `AttributeError`, so `load_config` fails
instead of returning the defaults. -/
theorem C6_load_config_default_fallback_raises
    (parseObj : PyValue → Except ConfigExc AgentConfig)
    (jsonLoads : String → Option PyValue) (env : String → Option String) :
    load_config parseObj jsonLoads env (fun _ => none) (some "custom.json") true =
      .error (.fileNotFound "Configuration file not found: custom.json") ∧
    load_config parseObj jsonLoads env (fun _ => none) none true =
      .error (.attributeError "'MemoryConfig' object has no attribute 'update_from_env'") ∧
    load_config parseObj jsonLoads env (fun _ => none) none false = .ok {} := by
  refine ⟨rfl, rfl, rfl⟩

/-- C2, counterexample: after `setup` followed by the interrupt-driven
`shutdown` (which completes without raising on the first call),
`_setup_complete` is still `true` and a subsequent `process()` call
returns a normal envelope with status `"success"` and no error — it does
not fail with a `NotConfiguredError`-class error (no such state or error
exists in the code). -/
theorem C2_counterexample :
    (shutdown .sigint (setup {} (agentInit scenarioConfigA))).map
        (fun t => (t.setupComplete,
          dictGet (process {} t [("tool", .vStr "x"), ("operation", .vStr "y")]).2 "status",
          dictGet (process {} t [("tool", .vStr "x"), ("operation", .vStr "y")]).2 "error")) =
      .ok (true, some (.vStr "success"), none) := by
  rfl

/-- After `setup` on a freshly constructed agent: `_setup_complete` is
set, no client session exists yet (it is created lazily elsewhere), and
the site handle is either absent (monitoring disabled) or present and
runner-registered. -/
theorem setup_fresh_state (e : SysEnv) (cfg : AgentConfig) :
    (setup e (agentInit cfg)).setupComplete = true ∧
    (setup e (agentInit cfg)).httpSession = none ∧
    ((setup e (agentInit cfg)).site = none ∨ (setup e (agentInit cfg)).site = some true) := by
  simp only [setup, agentInit, setupMemory, loadTools, setupHttpServer, reduceIte]
  split_ifs <;> simp_all

/-- C2, amended: on a set-up agent the interrupt signal drives the same
`cleanup` used by explicit shutdown — the first such call completes
without raising and empties the tool registry — but no `Stopped` state is
recorded: `_setup_complete` stays `true`, and a subsequent `process()`
call returns a normal success envelope instead of failing with a
`NotConfiguredError`-class error. Before setup, `process()` does trigger
`setup()` (once — further calls see `_setup_complete`). -/
theorem C2_process_after_shutdown_succeeds (e₀ env : SysEnv) (cfg : AgentConfig) (req : PyDict) :
    (∃ t, shutdown .sigint (setup e₀ (agentInit cfg)) = .ok t ∧
      t.setupComplete = true ∧ t.tools = [] ∧
      dictGet (process env t req).2 "status" = some (.vStr "success") ∧
      dictGet (process env t req).2 "error" = none) ∧
    (process env (agentInit cfg) req).1 = setup env (agentInit cfg) := by
  obtain ⟨hsc, hse, hsite⟩ := setup_fresh_state e₀ cfg
  constructor
  · have hproc : ∀ t : AgentState, t.setupComplete = true →
        dictGet (process env t req).2 "status" = some (.vStr "success") ∧
        dictGet (process env t req).2 "error" = none := by
      intro t ht
      constructor <;> simp [process, ht, dictGet, String.reduceEq]
    rcases hsite with h | h
    · refine ⟨{ setup e₀ (agentInit cfg) with tools := [] }, ?_, hsc, rfl, hproc _ hsc⟩
      simp [shutdown, cleanup, hse, h]
    · refine ⟨{ setup e₀ (agentInit cfg) with site := some false, tools := [] }, ?_, hsc, rfl,
        hproc _ hsc⟩
      simp [shutdown, cleanup, hse, h]
  · simp [process, show (agentInit cfg).setupComplete = false from rfl]

/-- C7, counterexample: on the error branch the metadata does not include
the operation — `_create_error_result` builds metadata holding only the
input — refuting the claim that metadata includes `operation` on both
branches. -/
theorem C7_counterexample :
    (execute {} [("operation", .vStr "unknown")]).status = "error" ∧
    dictGet (execute {} [("operation", .vStr "unknown")]).metadata "operation" = none := by
  refine ⟨rfl, rfl⟩

/-- C7, amended: every envelope produced by `ExampleTool.execute`
satisfies: on status `"success"` the result is non-null and the error
null, on status `"error"` the error is non-null and the result null; the
metadata always includes a copy of the input parameters, but the
operation is included only on the success branch (error-branch metadata
holds only the input). -/
theorem C7_envelope_invariant (cfg : ToolConfig) (input : PyDict) :
    ((execute cfg input).status = "success" ∧ (execute cfg input).result.isSome ∧
      (execute cfg input).error = none ∧
      (dictGet (execute cfg input).metadata "operation").isSome ∧
      dictGet (execute cfg input).metadata "input" = some (.vObj input)) ∨
    ((execute cfg input).status = "error" ∧ (execute cfg input).result = none ∧
      (execute cfg input).error.isSome ∧
      dictGet (execute cfg input).metadata "operation" = none ∧
      dictGet (execute cfg input).metadata "input" = some (.vObj input)) := by
  unfold execute
  cases hb : executeBody cfg input with
  | ok pr =>
    obtain ⟨op, r⟩ := pr
    left
    simp [dictGet, String.reduceEq]
  | error e =>
    right
    simp [create_error_result, dictGet, String.reduceEq]

/-- C8: the `add` operation. For all magnitudes within the configured
`max_add_value`, executing `add` on numbers `a` and `b` returns a success
envelope whose result is exactly `a + b` and whose metadata records the
operation `"add"` and the input copy. -/
theorem C8_add_returns_sum (cfg : ToolConfig) (a b : ℚ)
    (ha : |a| ≤ cfg.max_add_value) (hb : |b| ≤ cfg.max_add_value) :
    execute cfg [("operation", .vStr "add"), ("a", .vNum a), ("b", .vNum b)] =
      { status := "success"
        result := some (.vNum (a + b))
        error := none
        metadata := [("operation", .vStr "add"),
          ("input", .vObj [("operation", .vStr "add"), ("a", .vNum a), ("b", .vNum b)])] } := by
  have hcond : ¬ (|a| > cfg.max_add_value ∨ |b| > cfg.max_add_value) := by
    push_neg
    exact ⟨ha, hb⟩
  simp only [execute, executeBody, handle_add, pyFloat, dictGet, dictGetD, Option.getD,
    Option.isSome, Except.map, reduceIte, String.reduceEq, if_neg hcond]

/-- C8, witness: with the default configuration (`max_add_value = 1000`),
`add` on `a = 5`, `b = 3` returns status `"success"`, result `8`, and
metadata operation `"add"`. -/
theorem C8_witness :
    execute {} [("operation", .vStr "add"), ("a", .vNum 5), ("b", .vNum 3)] =
      { status := "success"
        result := some (.vNum 8)
        error := none
        metadata := [("operation", .vStr "add"),
          ("input", .vObj [("operation", .vStr "add"), ("a", .vNum 5), ("b", .vNum 3)])] } := by
  have h := C8_add_returns_sum {} 5 3
    (by norm_num [show ({} : ToolConfig).max_add_value = (1000 : ℚ) from rfl])
    (by norm_num [show ({} : ToolConfig).max_add_value = (1000 : ℚ) from rfl])
  norm_num at h
  exact h

/-- C9: dispatching an operation the tool does not support never escapes
`execute`: it returns an envelope with status `"error"` whose error text
is `"Unsupported operation: <op>"`, which contains the words
"unsupported operation" up to ASCII case. -/
theorem C9_unsupported_operation_error (cfg : ToolConfig) (input : PyDict) (s : String)
    (hop : dictGet input "operation" = some (.vStr s))
    (hg : s ≠ "greet") (ha : s ≠ "add") :
    (execute cfg input).status = "error" ∧
    (execute cfg input).error = some ("Unsupported operation: " ++ s) ∧
    "unsupported operation".data <+: lowerData ("Unsupported operation: " ++ s) := by
  have hexec :
      execute cfg input =
        create_error_result ("Unsupported operation: " ++ s) input := by
    simp [execute, executeBody, dictGetD, hop, hg, ha, ToolExc.displayMsg]
  refine ⟨by rw [hexec]; rfl, by rw [hexec]; rfl, ?_⟩
  have hdata : ("Unsupported operation: " ++ s).data =
      "Unsupported operation: ".data ++ s.data := rfl
  have hlower : lowerData ("Unsupported operation: " ++ s) =
      "unsupported operation: ".data ++ s.data.map lowerChar := by
    rw [lowerData, hdata, List.map_append]
    have : "Unsupported operation: ".data.map lowerChar = "unsupported operation: ".data := by
      decide
    rw [this]
  rw [hlower]
  refine ⟨": ".data ++ s.data.map lowerChar, ?_⟩
  rw [← List.append_assoc]
  rfl

/-- C9, witness: the unsupported operation `"multiply"` yields the error
envelope with message `"Unsupported operation: multiply"`. -/
theorem C9_witness :
    (execute {} [("operation", .vStr "multiply")]).status = "error" ∧
    (execute {} [("operation", .vStr "multiply")]).error =
      some "Unsupported operation: multiply" ∧
    "unsupported operation".data <+: lowerData "Unsupported operation: multiply" := by
  have h := C9_unsupported_operation_error {} [("operation", .vStr "multiply")] "multiply"
    (by rfl) (by decide) (by decide)
  exact h

/-- C10: `ExampleTool.execute` is total over dict inputs — it is a plain
function into `ExecuteResult` (both `ToolError` subtypes and unexpected
exceptions are converted to error envelopes by its `except` branches, so
nothing escapes), every envelope's status is `"success"` or `"error"`,
and an input without an `'operation'` key yields the validation-error
envelope — the documented `'greet'` default is never applied. -/
theorem C10_execute_total (cfg : ToolConfig) (input : PyDict) :
    ((execute cfg input).status = "success" ∨ (execute cfg input).status = "error") ∧
    (dictGet input "operation" = none →
      execute cfg input =
        create_error_result "Input must be a dictionary with an 'operation' key" input) := by
  constructor
  · unfold execute
    cases hb : executeBody cfg input with
    | ok pr =>
      obtain ⟨op, r⟩ := pr
      left
      rfl
    | error e =>
      right
      rfl
  · intro h
    simp [execute, executeBody, h, ToolExc.displayMsg]

/-- C10, witness: the empty input dict (no `'operation'` key) produces the
validation-error envelope, not a greeting. -/
theorem C10_witness :
    ((execute {} []).status = "success" ∨ (execute {} []).status = "error") ∧
    execute {} [] =
      create_error_result "Input must be a dictionary with an 'operation' key" [] := by
  have h := C10_execute_total {} []
  exact ⟨h.1, h.2 rfl⟩
